import Mathlib

/-!
Verification of the Hotplates repository (MSHPro hotplate serial driver).

The definitions below are a shallow embedding of the three source files:
`Hotplates/MSHProCommunication.py` (frame codec), `Hotplates/MSHPro.py`
(device state sequencer) and `Hotplates/SerialThreadedDuplex.py` (duplex
connection result slot).  Bytes are modelled as `Nat`, Python numbers
(including floats used as exact decimals by the driver) as `ℚ`, Python
exceptions as explicit error constructors, and each stateful operation as
a function from the state it reads to the trace of transactions it issues
together with its outcome.
-/

namespace Hotplates

/-- Embedding of `MSHProCommunication.checksum`: sum of byte values,
discarding overflow at each step (`(acc + c) & 0xFF`). -/
def checksum (val : List Nat) : Nat :=
  val.foldl (fun acc c => (acc + c) % 256) 0

/-- Embedding of `MSHProCommunication.COMMUNICATION`: the closed set of
protocol commands.  `MODE` stands for the source's `_MODE`. -/
inductive COMMUNICATION where
  | PING
  | INFO
  | STATUS
  | STIR
  | HEAT
  | MODE
deriving DecidableEq

/-- Embedding of the enum member value (the one-byte opcode). -/
def COMMUNICATION.value : COMMUNICATION → Nat
  | .PING => 0xA0
  | .INFO => 0xA1
  | .STATUS => 0xA2
  | .STIR => 0xB1
  | .HEAT => 0xB2
  | .MODE => 0xB3

/-- Embedding of the `len_rx` property: length of the expected response
(11 for `INFO`/`STATUS`, 6 otherwise). -/
def COMMUNICATION.len_rx : COMMUNICATION → Nat
  | .INFO => 11
  | .STATUS => 11
  | _ => 6

/-- The two `ValueError` cases raised by `to_bytes`
("Please supply value." and "Value outside maximum range.");
the spec groups both under `InvalidValue`. -/
inductive EncodeError where
  | noValue
  | outOfRange
deriving DecidableEq

/-- Result of `to_bytes`: either an `EncodeError` or the frame bytes. -/
inductive EncodeResult where
  | error (e : EncodeError)
  | ok (bs : List Nat)
deriving DecidableEq

/-- Python `int(...)` applied to an exact decimal: truncation toward zero.
For `q = num/den` in lowest terms with `den > 0`, `Int.div` (T-division)
truncates toward zero. -/
def truncTowardZero (q : ℚ) : ℤ :=
  q.num.tdiv (q.den : ℤ)

/-- The value-carrying tail of `to_bytes` (source lines 118-145): range
check `0 <= val <= 65535`, big-endian split of the value, then the frame
`bytes((0xFE, *encoded_value, 0x00, checksum(encoded_value)))` where
`encoded_value = (opcode, val >> 8 & 0xFF, val & 0xFF)`. -/
def encode_value (op : Nat) (v : ℤ) : EncodeResult :=
  if 0 ≤ v ∧ v ≤ 65535 then
    .ok [0xFE, op, (v.toNat >>> 8) &&& 0xFF, v.toNat &&& 0xFF, 0x00,
         checksum [op, (v.toNat >>> 8) &&& 0xFF, v.toNat &&& 0xFF]]
  else
    .error .outOfRange

/-- Embedding of `COMMUNICATION.to_bytes`.  The four value-less commands
return their hard-coded frames before the value is examined; `STIR`
converts the value with `int(val)` and `HEAT` with `int(float(val) * 10)`. -/
def to_bytes (c : COMMUNICATION) (val : Option ℚ) : EncodeResult :=
  match c with
  | .PING => .ok [0xFE, 0xA0, 0x00, 0x00, 0x00, 0xA0]
  | .INFO => .ok [0xFE, 0xA1, 0x00, 0x00, 0x00, 0xA1]
  | .STATUS => .ok [0xFE, 0xA2, 0x00, 0x00, 0x00, 0xA2]
  | .MODE => .ok [0xFE, 0xB3, 0x00, 0x00, 0x00, 0xB3]
  | .STIR =>
    match val with
    | none => .error .noValue
    | some q => encode_value 0xB1 (truncTowardZero q)
  | .HEAT =>
    match val with
    | none => .error .noValue
    | some q => encode_value 0xB2 (truncTowardZero (q * 10))

/-- The exceptions `parse_response` can raise: `IncompleteResponseException`,
`ResponseFormatException`, `HotplateException`, `ResponseParseException`. -/
inductive ParseExc where
  | incompleteResponse
  | responseFormat
  | hotplateError
  | responseParse
deriving DecidableEq

/-- The response dictionary built by `parse_response`; a key absent from
the Python dict is `none` here.  `success` starts out `False`. -/
structure ParsedResponse where
  success : Bool := false
  mode : Option Char := none
  stir_on : Option Bool := none
  heat_on : Option Bool := none
  heat_limit : Option ℚ := none
  heat_alarm : Option Bool := none
  stir_set : Option Nat := none
  stir_actual : Option Nat := none
  heat_set : Option ℚ := none
  heat_actual : Option ℚ := none
deriving DecidableEq

/-- Result of `parse_response`: a raised exception or the response dict. -/
inductive ParseResult where
  | exc (e : ParseExc)
  | ok (r : ParsedResponse)
deriving DecidableEq

/-- The characters of the source string `"_ABC"` indexed by
`b_data[0]` in the `INFO` branch of `parse_response`. -/
def modeChars : List Char := ['_', 'A', 'B', 'C']

/-- Embedding of `COMMUNICATION.parse_response`.  Python indexing is
rendered with `getD`/`getLastD` (always in bounds once the length check
has passed, except the `"_ABC"[b_data[0]]` lookup, whose `IndexError`
is the one failure the `INFO` branch's `try` can catch). -/
def parse_response (c : COMMUNICATION) (b : List Nat) : ParseResult :=
  if b.length < c.len_rx then .exc .incompleteResponse
  else if ¬(b.getD 0 0 = 0xFD ∧ b.getD 1 0 = c.value ∧
            b.getLastD 0 = checksum ((b.drop 1).dropLast)) then
    .exc .responseFormat
  else
    let b_data := (b.drop 2).dropLast
    match c with
    | .PING | .STIR | .HEAT | .MODE =>
      if b_data = [0x00, 0x00, 0x00] then .ok { success := true }
      else if b_data = [0x01, 0x00, 0x00] ∧ c ≠ .PING then .exc .hotplateError
      else .exc .responseParse
    | .INFO =>
      match modeChars.get? (b_data.getD 0 0) with
      | none => .exc .responseParse
      | some m =>
        .ok { success := true
              mode := some m
              stir_on := some (b_data.getD 1 0 == 0)
              heat_on := some (b_data.getD 2 0 == 0)
              heat_limit := some ((((b_data.getD 3 0 <<< 8) + b_data.getD 4 0 : Nat) : ℚ) / 10)
              heat_alarm := some (b_data.getD 5 0 == 0) }
    | .STATUS =>
      .ok { success := true
            stir_set := some ((b_data.getD 0 0 <<< 8) + b_data.getD 1 0)
            stir_actual := some ((b_data.getD 2 0 <<< 8) + b_data.getD 3 0)
            heat_set := some ((((b_data.getD 4 0 <<< 8) + b_data.getD 5 0 : Nat) : ℚ) / 10)
            heat_actual := some ((((b_data.getD 6 0 <<< 8) + b_data.getD 7 0 : Nat) : ℚ) / 10) }

lemma checksum_foldl_lt (l : List Nat) :
    ∀ a : Nat, a < 256 → l.foldl (fun acc c => (acc + c) % 256) a < 256 := by
  induction l with
  | nil => intro a ha; simpa using ha
  | cons x xs ih =>
    intro a _
    exact ih ((a + x) % 256) (Nat.mod_lt _ (by norm_num))

lemma checksum_lt (l : List Nat) : checksum l < 256 :=
  checksum_foldl_lt l 0 (by norm_num)

lemma checksum_append_zero (l : List Nat) : checksum (l ++ [0]) = checksum l := by
  unfold checksum
  rw [List.foldl_append]
  show (List.foldl (fun acc c => (acc + c) % 256) 0 l + 0) % 256 = _
  rw [Nat.add_zero]
  exact Nat.mod_eq_of_lt (checksum_lt l)

/-- C4: for every command and every byte string shorter than that
command's expected response length (6, or 11 for INFO/STATUS), decoding
fails with `IncompleteResponse` and never returns a partially parsed
result; since this holds for arbitrary contents, the length check
precedes every marker, opcode-echo and checksum check. -/
theorem claim_C4 (c : COMMUNICATION) (b : List Nat)
    (h : b.length < c.len_rx) :
    parse_response c b = .exc .incompleteResponse := by
  simp [parse_response, h]

/-- Witness for C4 at a concrete short input: the empty response to
`INFO` (expected length 11) yields `IncompleteResponse`. -/
theorem claim_C4_witness :
    parse_response .INFO [] = .exc .incompleteResponse :=
  claim_C4 .INFO [] (by decide)

/-- C5: every successful encoding is a 6-byte frame
`[0xFE, opcode, hi, lo, 0x00, checksum [opcode, hi, lo, 0x00]]`, with
zero value bytes for the value-less commands, and `PING` encodes to the
fixed frame `FE A0 00 00 00 A0`. -/
theorem claim_C5 (c : COMMUNICATION) (v : Option ℚ) (frame : List Nat)
    (h : to_bytes c v = .ok frame) :
    (∃ hi lo,
        frame = [0xFE, c.value, hi, lo, 0x00, checksum [c.value, hi, lo, 0x00]] ∧
        ((c = .PING ∨ c = .INFO ∨ c = .STATUS ∨ c = .MODE) → hi = 0 ∧ lo = 0)) ∧
    to_bytes .PING none = .ok [0xFE, 0xA0, 0x00, 0x00, 0x00, 0xA0] := by
  refine ⟨?_, rfl⟩
  have hz : ∀ op h1 l1 : Nat,
      checksum [op, h1, l1, 0] = checksum [op, h1, l1] := by
    intro op h1 l1
    have := checksum_append_zero [op, h1, l1]
    simpa using this
  cases c with
  | PING =>
    refine ⟨0, 0, ?_, fun _ => ⟨rfl, rfl⟩⟩
    simp only [to_bytes, EncodeResult.ok.injEq] at h
    rw [← h]
    decide
  | INFO =>
    refine ⟨0, 0, ?_, fun _ => ⟨rfl, rfl⟩⟩
    simp only [to_bytes, EncodeResult.ok.injEq] at h
    rw [← h]
    decide
  | STATUS =>
    refine ⟨0, 0, ?_, fun _ => ⟨rfl, rfl⟩⟩
    simp only [to_bytes, EncodeResult.ok.injEq] at h
    rw [← h]
    decide
  | MODE =>
    refine ⟨0, 0, ?_, fun _ => ⟨rfl, rfl⟩⟩
    simp only [to_bytes, EncodeResult.ok.injEq] at h
    rw [← h]
    decide
  | STIR =>
    cases v with
    | none => simp [to_bytes] at h
    | some q =>
      simp only [to_bytes, encode_value] at h
      split at h
      · simp only [EncodeResult.ok.injEq] at h
        refine ⟨(truncTowardZero q).toNat >>> 8 &&& 0xFF,
                (truncTowardZero q).toNat &&& 0xFF, ?_, by rintro (h | h | h | h) <;> cases h⟩
        rw [← h, COMMUNICATION.value, hz]
      · cases h
  | HEAT =>
    cases v with
    | none => simp [to_bytes] at h
    | some q =>
      simp only [to_bytes, encode_value] at h
      split at h
      · simp only [EncodeResult.ok.injEq] at h
        refine ⟨(truncTowardZero (q * 10)).toNat >>> 8 &&& 0xFF,
                (truncTowardZero (q * 10)).toNat &&& 0xFF, ?_, by rintro (h | h | h | h) <;> cases h⟩
        rw [← h, COMMUNICATION.value, hz]
      · cases h

/-- Witness for C5: instantiating at `PING` with no value recovers the
fixed frame shape with zero value bytes. -/
theorem claim_C5_witness :
    ∃ hi lo,
      [0xFE, 0xA0, 0x00, 0x00, 0x00, 0xA0] =
        [0xFE, COMMUNICATION.PING.value, hi, lo, 0x00,
         checksum [COMMUNICATION.PING.value, hi, lo, 0x00]] ∧
      ((COMMUNICATION.PING = .PING ∨ COMMUNICATION.PING = .INFO ∨
        COMMUNICATION.PING = .STATUS ∨ COMMUNICATION.PING = .MODE) → hi = 0 ∧ lo = 0) :=
  (claim_C5 .PING none [0xFE, 0xA0, 0x00, 0x00, 0x00, 0xA0] rfl).1

lemma encode_value_error_iff (op : Nat) (v : ℤ) :
    (∃ e, encode_value op v = .error e) ↔ ¬(0 ≤ v ∧ v ≤ 65535) := by
  unfold encode_value
  by_cases hr : 0 ≤ v ∧ v ≤ 65535
  · rw [if_pos hr]
    simp [hr]
  · rw [if_neg hr]
    simp [hr]

/-- C6: encoding STIR or HEAT fails exactly when no value is supplied or
the encoded integer falls outside `[0, 65535]`; the STIR value is
truncated as-is, the HEAT value is multiplied by 10 and truncated toward
zero, so `HEAT 200.0` encodes the value field `0x07D0`. -/
theorem claim_C6 :
    (∀ v : Option ℚ,
      (∃ e, to_bytes .STIR v = .error e) ↔
        (v = none ∨ ∃ q, v = some q ∧
          ¬(0 ≤ truncTowardZero q ∧ truncTowardZero q ≤ 65535))) ∧
    (∀ v : Option ℚ,
      (∃ e, to_bytes .HEAT v = .error e) ↔
        (v = none ∨ ∃ q, v = some q ∧
          ¬(0 ≤ truncTowardZero (q * 10) ∧ truncTowardZero (q * 10) ≤ 65535))) ∧
    to_bytes .HEAT (some 200) = .ok [0xFE, 0xB2, 0x07, 0xD0, 0x00, 0x89] := by
  refine ⟨?_, ?_, ?_⟩
  · intro v
    cases v with
    | none => simp [to_bytes]
    | some q =>
      simp only [to_bytes]
      rw [encode_value_error_iff]
      constructor
      · intro hr
        exact Or.inr ⟨q, rfl, hr⟩
      · rintro (h | ⟨q', hq', hr⟩)
        · exact absurd h (by simp)
        · injection hq' with h2
          subst h2
          exact hr
  · intro v
    cases v with
    | none => simp [to_bytes]
    | some q =>
      simp only [to_bytes]
      rw [encode_value_error_iff]
      constructor
      · intro hr
        exact Or.inr ⟨q, rfl, hr⟩
      · rintro (h | ⟨q', hq', hr⟩)
        · exact absurd h (by simp)
        · injection hq' with h2
          subst h2
          exact hr
  · have hm : ((200 : ℚ) * 10) = ((2000 : ℤ) : ℚ) := by norm_num
    have ht : truncTowardZero ((200 : ℚ) * 10) = 2000 := by
      simp only [truncTowardZero, hm, Rat.num_intCast, Rat.den_intCast]
      decide
    show to_bytes .HEAT (some 200) = _
    simp only [to_bytes]
    rw [ht]
    decide

/-- A well-formed 11-byte `INFO` response frame: marker, opcode echo,
eight data bytes, and the matching checksum. -/
def infoFrame (d0 d1 d2 d3 d4 d5 d6 d7 : Nat) : List Nat :=
  [0xFD, 0xA1, d0, d1, d2, d3, d4, d5, d6, d7,
   checksum [0xA1, d0, d1, d2, d3, d4, d5, d6, d7]]

lemma parse_infoFrame (d0 d1 d2 d3 d4 d5 d6 d7 : Nat) :
    parse_response .INFO (infoFrame d0 d1 d2 d3 d4 d5 d6 d7) =
      (match modeChars.get? d0 with
       | none => .exc .responseParse
       | some m =>
         .ok { success := true
               mode := some m
               stir_on := some (d1 == 0)
               heat_on := some (d2 == 0)
               heat_limit := some ((((d3 <<< 8) + d4 : Nat) : ℚ) / 10)
               heat_alarm := some (d5 == 0) }) := by
  simp [parse_response, infoFrame, COMMUNICATION.len_rx,
        COMMUNICATION.value, List.getLastD]

lemma parse_ack_frame (c : COMMUNICATION)
    (hc : c = .PING ∨ c = .STIR ∨ c = .HEAT ∨ c = .MODE) (p1 p2 p3 : Nat) :
    parse_response c [0xFD, c.value, p1, p2, p3, checksum [c.value, p1, p2, p3]] =
      (if [p1, p2, p3] = [0, 0, 0] then .ok { success := true }
       else if [p1, p2, p3] = [0x01, 0, 0] ∧ c ≠ .PING then .exc .hotplateError
       else .exc .responseParse) := by
  rcases hc with rfl | rfl | rfl | rfl <;>
    simp [parse_response, COMMUNICATION.len_rx, COMMUNICATION.value, List.getLastD]

lemma triple_eq_iff (a b d x y z : Nat) :
    ([a, b, d] = [x, y, z]) ↔ (a = x ∧ b = y ∧ d = z) := by
  simp

/-- C3: on a well-formed 6-byte acknowledgement frame for PING, STIR,
HEAT or MODE, payload `00 00 00` yields success, payload `01 00 00`
raises the device error for STIR/HEAT/MODE but `ParseError` for PING,
and every other payload raises `ParseError` for all four commands. -/
theorem claim_C3 (c : COMMUNICATION)
    (hc : c = .PING ∨ c = .STIR ∨ c = .HEAT ∨ c = .MODE) (p1 p2 p3 : Nat) :
    (p1 = 0 ∧ p2 = 0 ∧ p3 = 0 →
      parse_response c [0xFD, c.value, p1, p2, p3, checksum [c.value, p1, p2, p3]] =
        .ok { success := true }) ∧
    (p1 = 0x01 ∧ p2 = 0 ∧ p3 = 0 →
      parse_response c [0xFD, c.value, p1, p2, p3, checksum [c.value, p1, p2, p3]] =
        (if c = .PING then .exc .responseParse else .exc .hotplateError)) ∧
    (¬(p1 = 0 ∧ p2 = 0 ∧ p3 = 0) → ¬(p1 = 0x01 ∧ p2 = 0 ∧ p3 = 0) →
      parse_response c [0xFD, c.value, p1, p2, p3, checksum [c.value, p1, p2, p3]] =
        .exc .responseParse) := by
  have hred := parse_ack_frame c hc p1 p2 p3
  refine ⟨fun h => ?_, fun h => ?_, fun h1 h2 => ?_⟩
  · obtain ⟨rfl, rfl, rfl⟩ := h
    rcases hc with rfl | rfl | rfl | rfl <;> decide
  · obtain ⟨rfl, rfl, rfl⟩ := h
    rcases hc with rfl | rfl | rfl | rfl <;> decide
  · have e2 : ¬([p1, p2, p3] = ([0, 0, 0] : List Nat)) :=
      fun hh => h1 ((triple_eq_iff p1 p2 p3 0 0 0).mp hh)
    have e3 : ¬([p1, p2, p3] = ([0x01, 0, 0] : List Nat) ∧ c ≠ .PING) :=
      fun hh => h2 ((triple_eq_iff p1 p2 p3 0x01 0 0).mp hh.1)
    rw [hred, if_neg e2, if_neg e3]

/-- Witness for C3 at concrete inputs: a STIR acknowledgement with
payload `01 00 00` raises the device error, while the same payload on a
PING raises `ParseError`. -/
theorem claim_C3_witness :
    parse_response .STIR
        [0xFD, COMMUNICATION.STIR.value, 0x01, 0, 0,
         checksum [COMMUNICATION.STIR.value, 0x01, 0, 0]] =
      .exc .hotplateError ∧
    parse_response .PING
        [0xFD, COMMUNICATION.PING.value, 0x01, 0, 0,
         checksum [COMMUNICATION.PING.value, 0x01, 0, 0]] =
      .exc .responseParse := by
  constructor
  · have h := (claim_C3 .STIR (Or.inr (Or.inl rfl)) 0x01 0 0).2.1 ⟨rfl, rfl, rfl⟩
    simpa using h
  · have h := (claim_C3 .PING (Or.inl rfl) 0x01 0 0).2.1 ⟨rfl, rfl, rfl⟩
    simpa using h

/-- Counterexample for C2: an INFO response whose data byte0 is 0 does
not raise `ParseError`; the source indexes the string `"_ABC"`, so
byte0 = 0 yields the placeholder mode `'_'` with success. -/
theorem claim_C2_cex :
    parse_response .INFO [0xFD, 0xA1, 0, 0, 0, 0, 0, 0, 0, 0, 0xA1] =
      .ok { success := true, mode := some '_', stir_on := some true,
            heat_on := some true, heat_limit := some 0,
            heat_alarm := some true } ∧
    parse_response .INFO [0xFD, 0xA1, 0, 0, 0, 0, 0, 0, 0, 0, 0xA1] ≠
      .exc .responseParse := by
  have hb : [0xFD, 0xA1, 0, 0, 0, 0, 0, 0, 0, 0, 0xA1] =
      infoFrame 0 0 0 0 0 0 0 0 := by
    decide
  have h := parse_infoFrame 0 0 0 0 0 0 0 0
  rw [hb, h]
  norm_num [modeChars]
  decide

/-- C2 amended: a data byte0 of 1, 2 or 3 yields mode A, B or C; a
byte0 of 4 or more fails with `ParseError`; but a byte0 of 0 yields the
placeholder mode `'_'` with success rather than failing.  Byte1 equal
to 0 yields `stir_on` true and byte2 equal to 0 yields `heat_on` true,
the zero-means-on inversion being applied exactly once. -/
theorem claim_C2 (d0 d1 d2 d3 d4 d5 d6 d7 : Nat) :
    (d0 = 1 → parse_response .INFO (infoFrame d0 d1 d2 d3 d4 d5 d6 d7) =
      .ok { success := true, mode := some 'A', stir_on := some (d1 == 0),
            heat_on := some (d2 == 0),
            heat_limit := some ((((d3 <<< 8) + d4 : Nat) : ℚ) / 10),
            heat_alarm := some (d5 == 0) }) ∧
    (d0 = 2 → parse_response .INFO (infoFrame d0 d1 d2 d3 d4 d5 d6 d7) =
      .ok { success := true, mode := some 'B', stir_on := some (d1 == 0),
            heat_on := some (d2 == 0),
            heat_limit := some ((((d3 <<< 8) + d4 : Nat) : ℚ) / 10),
            heat_alarm := some (d5 == 0) }) ∧
    (d0 = 3 → parse_response .INFO (infoFrame d0 d1 d2 d3 d4 d5 d6 d7) =
      .ok { success := true, mode := some 'C', stir_on := some (d1 == 0),
            heat_on := some (d2 == 0),
            heat_limit := some ((((d3 <<< 8) + d4 : Nat) : ℚ) / 10),
            heat_alarm := some (d5 == 0) }) ∧
    (4 ≤ d0 → parse_response .INFO (infoFrame d0 d1 d2 d3 d4 d5 d6 d7) =
      .exc .responseParse) ∧
    (d0 = 0 → parse_response .INFO (infoFrame d0 d1 d2 d3 d4 d5 d6 d7) =
      .ok { success := true, mode := some '_', stir_on := some (d1 == 0),
            heat_on := some (d2 == 0),
            heat_limit := some ((((d3 <<< 8) + d4 : Nat) : ℚ) / 10),
            heat_alarm := some (d5 == 0) }) := by
  have hred := parse_infoFrame d0 d1 d2 d3 d4 d5 d6 d7
  refine ⟨fun h => ?_, fun h => ?_, fun h => ?_, fun h => ?_, fun h => ?_⟩
  · subst h
    rw [hred]
    rfl
  · subst h
    rw [hred]
    rfl
  · subst h
    rw [hred]
    rfl
  · have hn : modeChars.get? d0 = none := by
      rw [List.get?_eq_none]
      simpa [modeChars] using h
    rw [hred, hn]
  · subst h
    rw [hred]
    rfl

/-- Witness for C2: an INFO frame with data byte0 = 1 parses to mode A
with both channel flags reported on. -/
theorem claim_C2_witness :
    parse_response .INFO (infoFrame 1 0 0 0 0 0 0 0) =
      .ok { success := true, mode := some 'A', stir_on := some ((0 : Nat) == 0),
            heat_on := some ((0 : Nat) == 0),
            heat_limit := some (((((0 : Nat) <<< 8) + 0 : Nat) : ℚ) / 10),
            heat_alarm := some ((0 : Nat) == 0) } :=
  (claim_C2 1 0 0 0 0 0 0 0).1 rfl

/-- Witness for C6: encoding STIR with no value fails, and encoding
`HEAT 70000` (encoded integer 700000, out of range) fails. -/
theorem claim_C6_witness :
    (∃ e, to_bytes .STIR none = .error e) ∧
    (∃ e, to_bytes .HEAT (some 70000) = .error e) := by
  constructor
  · exact (claim_C6.1 none).mpr (Or.inl rfl)
  · refine (claim_C6.2.1 (some 70000)).mpr (Or.inr ⟨70000, rfl, ?_⟩)
    have hm : ((70000 : ℚ) * 10) = ((700000 : ℤ) : ℚ) := by norm_num
    simp only [truncTowardZero, hm, Rat.num_intCast, Rat.den_intCast]
    decide

/-! Device state sequencer, from `Hotplates/MSHPro.py`. -/

/-- Embedding of `MSHPro.__setval` (source lines 237-290) from the point
where the channel's raw `(set_value, on_status)` pair has been read.
`val` is the target (after the `val is None` substitution), `send n`
reports the `success` flag of the n-th set-command transaction issued,
and the result pairs the list of values sent with the returned boolean.
Python's `if ...["success"]: return True ... return False` pattern is
rendered as returning the transaction's flag directly. -/
def setval (set_value : ℚ) (on_status : Bool) (val : ℚ) (send : Nat → Bool) :
    List ℚ × Bool :=
  if set_value = val then
    if on_status then ([], true)
    else ([set_value], send 0)
  else if send 0 = false then ([val], false)
  else if on_status = false then ([val], true)
  else ([val, val], send 1)

/-- C1: after reading the channel's raw `(set_value, on_flag)`, target
equal with flag on issues zero set-command transactions and succeeds;
target equal with flag off issues exactly one; target different with
flag off issues exactly one; target different with flag on issues two
transactions of the same target, stopping after the first one when that
transaction fails. -/
theorem claim_C1 (set_value : ℚ) (on_status : Bool) (target : ℚ)
    (send : Nat → Bool) :
    (set_value = target → on_status = true →
      setval set_value on_status target send = ([], true)) ∧
    (set_value = target → on_status = false →
      setval set_value on_status target send = ([set_value], send 0)) ∧
    (set_value ≠ target → on_status = false →
      (setval set_value on_status target send).1 = [target] ∧
      (setval set_value on_status target send).2 = send 0) ∧
    (set_value ≠ target → on_status = true →
      (send 0 = true →
        setval set_value on_status target send = ([target, target], send 1)) ∧
      (send 0 = false →
        setval set_value on_status target send = ([target], false))) := by
  refine ⟨fun he hon => ?_, fun he hon => ?_, fun hne hon => ?_, fun hne hon => ⟨fun hs => ?_, fun hs => ?_⟩⟩
  · rw [setval, if_pos he, if_pos hon]
  · rw [setval, if_pos he, hon]
    rfl
  · rw [setval, if_neg hne, hon]
    cases hs : send 0 <;> simp [hs]
  · rw [setval, if_neg hne, hs, hon]
    cases h1 : send 1 <;> simp [h1]
  · rw [setval, if_neg hne, hs]
    rfl

/-- Witness for C1: the spec's scenario (set=200, on=true, target=250)
with both transactions succeeding issues two sends of 250 and succeeds;
with a failing first transaction it stops after one send. -/
theorem claim_C1_witness :
    setval 200 true 250 (fun _ => true) = ([250, 250], true) ∧
    setval 200 true 250 (fun _ => false) = ([250], false) :=
  ⟨((claim_C1 200 true 250 (fun _ => true)).2.2.2 (by norm_num) rfl).1 rfl,
   ((claim_C1 200 true 250 (fun _ => false)).2.2.2 (by norm_num) rfl).2 rfl⟩

/-- `MSHPro.HEATLIMIT_MAX`: maximum settable temperature. -/
def HEATLIMIT_MAX : ℚ := 340.0

/-- `MSHPro.HEATLIMIT_MIN`: minimum settable temperature. -/
def HEATLIMIT_MIN : ℚ := 25.0

/-- The observable steps of `MSHPro.heat`: a call to `heat_off` (itself
a status read plus at most one toggle transaction) or a delegation to
`__setval` on the HEAT channel. -/
inductive HeatAction where
  | heatOff
  | setvalHeat (q : ℚ)
deriving DecidableEq

/-- Outcome of `MSHPro.heat`: normal return, or the `ValueError`
("outside allowable range") escaping to the caller. -/
inductive HeatOutcome where
  | returned
  | raisedOutOfRange
deriving DecidableEq

/-- Embedding of `MSHPro.heat` (source lines 298-329) on a target
already convertible to a number, on the communication-error-free path:
falsy target turns heat off; an out-of-range target calls `heat_off`,
raises, and the `except` handler calls `heat_off` once more before
re-raising; otherwise the target is delegated to `__setval`. -/
def heat (val : ℚ) : List HeatAction × HeatOutcome :=
  if val = 0 then ([.heatOff], .returned)
  else if ¬(HEATLIMIT_MIN ≤ val ∧ val ≤ HEATLIMIT_MAX) then
    ([.heatOff, .heatOff], .raisedOutOfRange)
  else ([.setvalHeat val], .returned)

/-- C7: for every truthy target outside `[25.0, 340.0]`, `heat` raises
the out-of-range error after performing heat-off actions (two of them:
one before raising, one in the exception handler), and never issues a
HEAT set-value step with the invalid target. -/
theorem claim_C7 (val : ℚ) (hne : val ≠ 0)
    (hout : ¬(HEATLIMIT_MIN ≤ val ∧ val ≤ HEATLIMIT_MAX)) :
    heat val = ([.heatOff, .heatOff], .raisedOutOfRange) ∧
    ∀ q : ℚ, HeatAction.setvalHeat q ∉ (heat val).1 := by
  have hh : heat val = ([.heatOff, .heatOff], .raisedOutOfRange) := by
    rw [heat, if_neg hne, if_pos hout]
  refine ⟨hh, fun q => ?_⟩
  rw [hh]
  simp

/-- Witness for C7 at the spec's example input 341.0. -/
theorem claim_C7_witness :
    heat 341 = ([.heatOff, .heatOff], .raisedOutOfRange) ∧
    ∀ q : ℚ, HeatAction.setvalHeat q ∉ (heat 341).1 :=
  claim_C7 341 (by norm_num)
    (by rw [HEATLIMIT_MIN, HEATLIMIT_MAX]; norm_num)

/-- The three hotplate modes cycled by the undocumented command. -/
inductive PlateMode where
  | A
  | B
  | C
deriving DecidableEq

/-- Index of a mode in the source string `"ABC"` (`"ABC".index(mode)`). -/
def PlateMode.idx : PlateMode → Nat
  | .A => 0
  | .B => 1
  | .C => 2

/-- Embedding of `MSHPro.mode` (source lines 370-381) from the point
where the current mode has been read via INFO: the loop
`for _ in range((3 + target_mode - set_mode) % 3)` issues that many
cycle-command transactions, listed here as units. -/
def mode_run (set_mode target_mode : PlateMode) : List Unit :=
  List.replicate ((3 + target_mode.idx - set_mode.idx) % 3) ()

/-- C8: `mode` issues exactly `(3 + targetIndex - currentIndex) mod 3`
cycle transactions; zero when current equals target, and exactly two
from mode A to target C. -/
theorem claim_C8 (set_mode target_mode : PlateMode) :
    (mode_run set_mode target_mode).length =
      (3 + target_mode.idx - set_mode.idx) % 3 ∧
    (set_mode = target_mode → mode_run set_mode target_mode = []) ∧
    (mode_run .A .C).length = 2 := by
  refine ⟨List.length_replicate _ _, fun h => ?_, by decide⟩
  subst h
  cases set_mode <;> decide

/-- Witness for C8: same current and target mode issues no transaction,
and A to C issues two. -/
theorem claim_C8_witness :
    mode_run .A .A = [] ∧ (mode_run .A .C).length = 2 :=
  ⟨(claim_C8 .A .A).2.1 rfl, (claim_C8 .A .C).2.2⟩

/-! Duplex connection result slot, from `Hotplates/SerialThreadedDuplex.py`. -/

/-- The mutable slots of `SerialThreadedDuplex.Serial` read by the
`value` property: the stored reader exception (exceptions are opaque
labels here; an exception object is always truthy), the reader thread
(`none` when no thread was ever created, otherwise its `is_alive()`
flag), and the collected bytes (`none` before any communication). -/
structure DuplexState where
  rx_exception : Option Nat
  rx_thread : Option Bool
  rx_value : Option (List Nat)
deriving DecidableEq

/-- Outcome of reading the `value` property. -/
inductive ValueOutcome where
  | raised (e : Nat)
  | notComplete
  | noCommunication
  | noData
  | got (bs : List Nat)
deriving DecidableEq

/-- Embedding of the `Serial.value` property (source lines 141-169):
`self.exception()` re-raises a stored reader exception; then a live
reader thread raises `ReadingNotCompleteException`; then a `None` value
raises `NoCommunicationException`; then empty bytes raise
`NoDataException`; otherwise the bytes are returned. -/
def Serial.value (s : DuplexState) : ValueOutcome :=
  match s.rx_exception with
  | some e => .raised e
  | none =>
    if s.rx_thread = some true then .notComplete
    else
      match s.rx_value with
      | none => .noCommunication
      | some v => if v = [] then .noData else .got v

/-- C9: the result-value checks happen in exactly this order: a stored
reader exception is raised first; otherwise a still-running reader
thread fails with `NotComplete`; otherwise a never-run transaction fails
with `NoCommunication`; otherwise zero collected bytes fail with
`NoData`; otherwise the collected bytes are returned. -/
theorem claim_C9 (s : DuplexState) :
    (∀ e, s.rx_exception = some e → Serial.value s = .raised e) ∧
    (s.rx_exception = none → s.rx_thread = some true →
      Serial.value s = .notComplete) ∧
    (s.rx_exception = none → s.rx_thread ≠ some true → s.rx_value = none →
      Serial.value s = .noCommunication) ∧
    (s.rx_exception = none → s.rx_thread ≠ some true → s.rx_value = some [] →
      Serial.value s = .noData) ∧
    (∀ v, s.rx_exception = none → s.rx_thread ≠ some true →
      s.rx_value = some v → v ≠ [] → Serial.value s = .got v) := by
  obtain ⟨exc, thr, rxv⟩ := s
  refine ⟨fun e he => ?_, fun he ht => ?_, fun he ht hv => ?_,
          fun he ht hv => ?_, fun v he ht hv hne => ?_⟩
  · simp only at he
    subst he
    rfl
  · simp only at he ht
    subst he
    simp [Serial.value, ht]
  · simp only at he ht hv
    subst he
    subst hv
    simp [Serial.value, ht]
  · simp only at he ht hv
    subst he
    subst hv
    simp [Serial.value, ht]
  · simp only at he ht hv
    subst he
    subst hv
    simp [Serial.value, ht, hne]

/-- Witness for C9: a stored exception wins over every later check, and
a completed single-transaction state returns its bytes. -/
theorem claim_C9_witness :
    Serial.value ⟨some 7, some true, some []⟩ = .raised 7 ∧
    Serial.value ⟨none, some false, some [1, 2]⟩ = .got [1, 2] :=
  ⟨(claim_C9 ⟨some 7, some true, some []⟩).1 7 rfl,
   (claim_C9 ⟨none, some false, some [1, 2]⟩).2.2.2.2 [1, 2] rfl
     (by simp) rfl (by simp)⟩

/-- The value stored under `stir_set`/`heat_set` in the status dict:
either the numeric target from the STATUS reply or the string `"Off"`
substituted by the normalized view. -/
inductive SetField where
  | num (q : ℚ)
  | off
deriving DecidableEq

/-- The dict produced by `MSHPro.status` before normalization: the
STATUS reply's keys merged (via `dict.update`) with the INFO reply's
keys, plus the shared `success` flag. -/
structure StatusDict where
  success : Bool
  stir_set : SetField
  stir_actual : Nat
  heat_set : SetField
  heat_actual : ℚ
  mode : Char
  stir_on : Bool
  heat_on : Bool
  heat_limit : ℚ
  heat_alarm : Bool
deriving DecidableEq

/-- Embedding of `MSHPro.status` (source lines 202-212) after the merged
dict `r` has been built: with `raw_values` false, `heat_set` is replaced
by `"Off"` when `heat_on` is false and `stir_set` by `"Off"` when
`stir_on` is false; the bare expression statement `r["heat_alarm"]`
neither removes nor changes that key. -/
def status_view (raw_values : Bool) (r : StatusDict) : StatusDict :=
  if raw_values then r
  else
    { r with
      heat_set := if r.heat_on then r.heat_set else .off
      stir_set := if r.stir_on then r.stir_set else .off }

/-- C10: the normalized status view modifies only `stir_set` and
`heat_set` — each replaced by the `"Off"` sentinel exactly when its
`_on` flag is false — and leaves every other key, including
`heat_alarm`, present with its raw value. -/
theorem claim_C10 (r : StatusDict) :
    (status_view false r).success = r.success ∧
    (status_view false r).stir_actual = r.stir_actual ∧
    (status_view false r).heat_actual = r.heat_actual ∧
    (status_view false r).mode = r.mode ∧
    (status_view false r).stir_on = r.stir_on ∧
    (status_view false r).heat_on = r.heat_on ∧
    (status_view false r).heat_limit = r.heat_limit ∧
    (status_view false r).heat_alarm = r.heat_alarm ∧
    (status_view false r).stir_set = (if r.stir_on then r.stir_set else .off) ∧
    (status_view false r).heat_set = (if r.heat_on then r.heat_set else .off) := by
  simp [status_view]

/-- Witness for C10 at a concrete merged dict with both channels off:
the set fields become `"Off"` and `heat_alarm` keeps its raw value. -/
theorem claim_C10_witness :
    (status_view false
        ⟨true, .num 200, 0, .num 50, 21, 'A', false, false, 340, true⟩).heat_alarm =
      true ∧
    (status_view false
        ⟨true, .num 200, 0, .num 50, 21, 'A', false, false, 340, true⟩).stir_set =
      .off :=
  ⟨(claim_C10 ⟨true, .num 200, 0, .num 50, 21, 'A', false, false, 340, true⟩).2.2.2.2.2.2.2.1,
   by
     have h :=
       (claim_C10 ⟨true, .num 200, 0, .num 50, 21, 'A', false, false, 340, true⟩).2.2.2.2.2.2.2.2.1
     simpa using h⟩

end Hotplates
